import Mathlib

/-!
Verification development for the morelia compiler core (a small Python-to-LLVM-IR
compiler).  The Lean definitions below are a shallow embedding of the Python
sources:

  * `src/morelia/type_checker.py`  — class `TypeChecker`
  * `src/morelia/ast_visitor.py`   — class `LLVMIRGenerator`
  * `src/morelia/compiler.py`      — class `MoreliaCompiler`

The program tree produced by Python ast.parse is modelled by the mutual
inductive family below.  Only the node kinds the compiler core dispatches on
are distinguished; every other node kind is collapsed into `otherExpr` or
`passStmt`, whose generic visit descends into no relevant children, matching
ast.NodeVisitor.generic_visit on childless nodes.
-/

set_option maxHeartbeats 1000000

namespace Morelia

/-- Expression context of an ast.Name node (ast.Load / ast.Store). -/
inductive NameCtx
  | load
  | store
deriving DecidableEq

/-- A Python literal constant value as stored in an ast.Constant node.
`bool` is kept distinct from `int` even though bool is a subclass of int in
Python; the isinstance behaviour is modelled where it matters.  `float` carries
the text Python str would render for the value (float arithmetic itself is
never performed by the compiler).  `other` carries the Python type name of an
otherwise-unsupported value together with its rendered repr. -/
inductive PyVal
  | str (s : String)
  | int (n : Int)
  | bool (b : Bool)
  | float (txt : String)
  | none
  | other (typeName : String) (reprTxt : String)
deriving DecidableEq

mutual
/-- A Python expression node (the kinds the core dispatches on). -/
inductive PyExpr
  | name (id : String) (ctx : NameCtx)
  | const (v : PyVal)
  | call (func : PyExpr) (args : PyExprList)
  | otherExpr
deriving DecidableEq

/-- A list of expression nodes (call arguments). -/
inductive PyExprList
  | nil
  | cons (e : PyExpr) (es : PyExprList)
deriving DecidableEq

/-- An optional expression (e.g. the returns field of a FunctionDef,
or the value of a Return statement). -/
inductive OptPyExpr
  | none
  | some (e : PyExpr)
deriving DecidableEq

/-- A Python statement node (the kinds the core dispatches on). -/
inductive PyStmt
  | funcDef (name : String) (returns : OptPyExpr) (body : PyStmtList)
  | ret (value : OptPyExpr)
  | exprStmt (e : PyExpr)
  | passStmt
deriving DecidableEq

/-- A list of statement nodes (a module body or function body). -/
inductive PyStmtList
  | nil
  | cons (s : PyStmt) (ss : PyStmtList)
deriving DecidableEq
end

/-- Python type(value).__name__ for the modelled constant values. -/
def pyTypeName : PyVal → String
  | .str _ => "str"
  | .int _ => "int"
  | .bool _ => "bool"
  | .float _ => "float"
  | .none => "NoneType"
  | .other t _ => t

/-- UTF-8 encoding of a single unicode scalar value, as in Python
str.encode with the utf-8 codec. -/
def charUtf8Bytes (c : Char) : List Nat :=
  let v := c.toNat
  if v < 0x80 then [v]
  else if v < 0x800 then
    [0xC0 ||| (v >>> 6), 0x80 ||| (v &&& 0x3F)]
  else if v < 0x10000 then
    [0xE0 ||| (v >>> 12), 0x80 ||| ((v >>> 6) &&& 0x3F), 0x80 ||| (v &&& 0x3F)]
  else
    [0xF0 ||| (v >>> 18), 0x80 ||| ((v >>> 12) &&& 0x3F),
     0x80 ||| ((v >>> 6) &&& 0x3F), 0x80 ||| (v &&& 0x3F)]

/-- UTF-8 byte sequence of a string (Python py_string.encode of utf-8). -/
def utf8Bytes (s : String) : List Nat :=
  s.data.flatMap charUtf8Bytes

/-- Python len of value.encode of utf-8: the encoded byte count. -/
def utf8ByteLen (s : String) : Nat :=
  (utf8Bytes s).length

/-- One uppercase hexadecimal digit (0-15). -/
def hexDigitChar (n : Nat) : Char :=
  if n < 10 then Char.ofNat (48 + n) else Char.ofNat (55 + n)

/-- Python format spec 02X applied to a byte value (two-digit zero-padded
uppercase hex).  All inputs fed to this function are UTF-8 byte values,
hence below 256. -/
def hex2 (b : Nat) : String :=
  String.mk [hexDigitChar (b / 16), hexDigitChar (b % 16)]

/-- LLVMIRGenerator._escape_llvm_string, lines 30-57 of ast_visitor.py,
expressed on the UTF-8 byte sequence of the input string: the loop body
`for char_code in py_string.encode` translated clause by clause.
92, 34, 10, 13, 9 are the byte values of backslash, double quote, newline,
carriage return and tab. -/
def escStep (escaped : String) (c : Nat) : String :=
  if c = 92 then escaped ++ "\\5C"
  else if c = 34 then escaped ++ "\\22"
  else if c = 10 then escaped ++ "\\0A"
  else if c = 13 then escaped ++ "\\0D"
  else if c = 9 then escaped ++ "\\09"
  else if ¬ (32 ≤ c ∧ c ≤ 126) then escaped ++ "\\" ++ hex2 c
  else escaped ++ String.singleton (Char.ofNat c)

/-- The full escaping loop: fold the loop body over the bytes starting from
the empty accumulator. -/
def escapeLLVMstring (bytes : List Nat) : String :=
  bytes.foldl escStep ""

/-- The string-level escaper exactly as called by the generator:
escape the UTF-8 encoding of the Python string. -/
def escapeLLVMstringOfString (s : String) : String :=
  escapeLLVMstring (utf8Bytes s)

/-- SPEC-SIDE definition (for the refinement claim C4 only): the image of a
single byte under the String Escaper as the specification words it:
backslash to \5C, double quote to \22, newline to \0A, carriage return
to \0D, tab to \09, every remaining printable ASCII byte (32-126) to the
literal character, any other byte to its two-digit uppercase zero-padded
hex escape. -/
def escapeByteSpec (b : Nat) : String :=
  if b = 92 then "\\5C"
  else if b = 34 then "\\22"
  else if b = 10 then "\\0A"
  else if b = 13 then "\\0D"
  else if b = 9 then "\\09"
  else if 32 ≤ b ∧ b ≤ 126 then String.singleton (Char.ofNat b)
  else "\\" ++ hex2 b

/-- SPEC-SIDE definition (claim C4): byte-independent escaping, the
concatenation of the per-byte images. -/
def escapeBytesSpec : List Nat → String
  | [] => ""
  | b :: bs => escapeByteSpec b ++ escapeBytesSpec bs

/-! ## The Definition Checker (type_checker.py, class TypeChecker) -/

/-- State of a TypeChecker instance: the append-only error list and the
bound-variable set (self.variables; only key membership is ever consulted,
so it is modelled by the list of keys). -/
structure TCState where
  errors : List String
  boundVars : List String
deriving DecidableEq

/-- A fresh TypeChecker instance (TypeChecker.__init__). -/
def initialTC : TCState := { errors := [], boundVars := [] }

/-- The keys of the self.builtins dict set up in TypeChecker.__init__:
print, None, NoneType, int. -/
def builtinNames : List String := ["print", "None", "NoneType", "int"]

/-- TypeChecker.visit_Name, lines 48-74: the None/NoneType guard, then the
builtin lookup, then the bound-variable lookup, else the
Undefined-variable error.  The Load/Store context is ignored by the code. -/
def tcVisitName (st : TCState) (id : String) : TCState :=
  if id = "None" ∨ id = "NoneType" then st
  else if builtinNames.contains id then st
  else if st.boundVars.contains id then st
  else { st with errors := st.errors ++ ["Undefined variable: " ++ id] }

/-- TypeChecker.visit_Constant, lines 76-83.  The accepting test is
`isinstance(node.value, (str, int)) or node.value is None`; note that in
Python bool is a subclass of int, so isinstance of a bool against int is
True and boolean constants are accepted silently. -/
def tcVisitConstant (st : TCState) (v : PyVal) : TCState :=
  match v with
  | .str _ => st
  | .int _ => st
  | .bool _ => st
  | .none => st
  | v => { st with errors := st.errors ++ ["Unsupported constant type: " ++ pyTypeName v] }

/-- The value _get_type_annotation reports for a recognized annotation:
type(None) for a None-like annotation, int for the int annotation.  The
method returns Optional[type]; Option.none models the Python None result
(either the explicit error fallbacks or the sentinel stored for print). -/
inductive TCType
  | noneType
  | intType
deriving DecidableEq

/-- Python repr of type(annotation) for the modelled expression nodes,
as interpolated into the Unknown-annotation-type message. -/
def pyAstClassRepr : PyExpr → String
  | .name _ _ => "<class \x27ast.Name\x27>"
  | .const _ => "<class \x27ast.Constant\x27>"
  | .call _ _ => "<class \x27ast.Call\x27>"
  | .otherExpr => "<class \x27ast.AST\x27>"

/-- TypeChecker._get_type_annotation, lines 99-127.  For a Name annotation
whose id is a builtins key the stored value is returned: type(None) for the
keys None and NoneType, int for the key int, and the sentinel None stored
for the key print (so a print annotation yields Option.none with no error
message).  A Name not in builtins appends the Unsupported-type message; a
Constant None yields type(None); anything else appends the
Unknown-annotation-type message. -/
def tcGetTypeAnn (st : TCState) (a : PyExpr) : TCState × Option TCType :=
  match a with
  | .name id _ =>
    if builtinNames.contains id then
      if id = "None" ∨ id = "NoneType" then (st, Option.some TCType.noneType)
      else if id = "int" then (st, Option.some TCType.intType)
      else (st, Option.none)
    else
      ({ st with errors := st.errors ++ ["Unsupported type annotation: " ++ id] },
       Option.none)
  | .const .none => (st, Option.some TCType.noneType)
  | a =>
      ({ st with errors := st.errors ++ ["Unknown annotation type: " ++ pyAstClassRepr a] },
       Option.none)

mutual
/-- Dispatch of TypeChecker.visit on an expression node: visit_Name,
visit_Constant, visit_Call, or generic_visit for unhandled kinds. -/
def tcVisitExpr (st : TCState) : PyExpr → TCState
  | .name id _ => tcVisitName st id
  | .const v => tcVisitConstant st v
  | .call f args =>
    match f with
    | .name id _ =>
      if id = "print" then st
      else if st.boundVars.contains id then st
      else
        -- append the Undefined-function error, then fall through to
        -- generic_visit(node), which re-visits the callee Name and then
        -- the arguments (visit_Call lines 85-97)
        let st1 := { st with errors := st.errors ++ ["Undefined function: " ++ id] }
        tcVisitArgs (tcVisitName st1 id) args
    | f =>
      -- callee is not a Name: no error branch runs, generic_visit descends
      tcVisitArgs (tcVisitExpr st f) args
  | .otherExpr => st

/-- generic_visit over a list of argument expressions. -/
def tcVisitArgs (st : TCState) : PyExprList → TCState
  | .nil => st
  | .cons e es => tcVisitArgs (tcVisitExpr st e) es

/-- Dispatch of TypeChecker.visit on a statement node.  FunctionDef has a
dedicated visitor (lines 26-46); Return and Expr statements have none, so
generic_visit descends into their child expression; other statement kinds
descend with no effect. -/
def tcVisitStmt (st : TCState) : PyStmt → TCState
  | .funcDef name returns body =>
    match returns with
    | .none =>
      { st with errors := st.errors ++ ["Function " ++ name ++ " lacks return type annotation"] }
    | .some ann =>
      match tcGetTypeAnn st ann with
      | (st1, Option.none) =>
        { st1 with errors := st1.errors ++ ["Invalid return type annotation for function " ++ name] }
      | (st1, Option.some _) => tcVisitStmts st1 body
  | .ret v =>
    match v with
    | .none => st
    | .some e => tcVisitExpr st e
  | .exprStmt e => tcVisitExpr st e
  | .passStmt => st

/-- Visit a list of statements in order. -/
def tcVisitStmts (st : TCState) : PyStmtList → TCState
  | .nil => st
  | .cons s ss => tcVisitStmts (tcVisitStmt st s) ss
end

/-- TypeChecker.check applied to a Module node with the given body:
the Module node has no dedicated visitor, so generic_visit visits each
top-level statement in order.  This returns the final checker state. -/
def tcCheckState (m : PyStmtList) : TCState :=
  tcVisitStmts initialTC m

/-- TypeChecker.check: True iff the error list is empty after the pass. -/
def tcCheck (m : PyStmtList) : Bool :=
  (tcCheckState m).errors.isEmpty

/-! ## The IR Emitter (ast_visitor.py, class LLVMIRGenerator) -/

/-- State of an LLVMIRGenerator instance: the four text buffers, the name of
the function currently being emitted, and the block counter.  The unused
self.variables dict of the generator is omitted (it is never read or
written by any method). -/
structure EmitState where
  modulePrefixCode : List String
  globalDefinitions : List String
  allFunctionDefinitionsCode : List String
  currentFunctionBodyCode : List String
  currentFunctionName : Option String
  blockCounter : Nat
deriving DecidableEq

/-- A fresh LLVMIRGenerator instance (LLVMIRGenerator.__init__, lines
15-28): empty buffers, counter 0, and the printf declaration seeded into
the module prefix. -/
def freshEmit : EmitState :=
  { modulePrefixCode := ["declare i32 @printf(i8*, ...)"]
    globalDefinitions := []
    allFunctionDefinitionsCode := []
    currentFunctionBodyCode := []
    currentFunctionName := Option.none
    blockCounter := 0 }

/-- LLVMIRGenerator._map_ast_annotation_to_llvm, lines 59-77: None input
maps to void; a Name maps None to void, int to i32, str to i8*; a
Constant None maps to void; everything else (including a Name with any
other id) falls through to the void default. -/
def mapAnnToLLVM : OptPyExpr → String
  | .none => "void"
  | .some (.name "None" _) => "void"
  | .some (.name "int" _) => "i32"
  | .some (.name "str" _) => "i8*"
  | .some (.const .none) => "void"
  | .some _ => "void"

/-- The resolved IR return type of a function definition
(visit_FunctionDef lines 104-112): main is always i32; otherwise a present
annotation goes through the mapper and an absent one defaults to void. -/
def funcReturnType (name : String) (returns : OptPyExpr) : String :=
  if name = "main" then "i32"
  else
    match returns with
    | .some a => mapAnnToLLVM (OptPyExpr.some a)
    | .none => "void"

/-- LLVMIRGenerator.visit_Name, lines 356-362: a Load-context name yields a
placeholder pseudo-register, any other context a comment placeholder. -/
def emitNameValue (id : String) (ctx : NameCtx) : String :=
  match ctx with
  | .load => "%" ++ id ++ " ; Placeholder for loaded variable"
  | .store => "; Unhandled Name context for " ++ id

/-- LLVMIRGenerator.visit_Constant, lines 156-193.  A string value interns a
new global named str_<counter> (the counter is incremented, the
declaration line is appended without any deduplication) and returns the
getelementptr expression; an int returns its decimal text (and a bool,
being an int by isinstance, returns its Python str rendering True/False);
a float returns a double-tagged literal; None returns the commented null
expression; anything else returns the error-comment placeholder. -/
def emitConstant (st : EmitState) (v : PyVal) : EmitState × String :=
  match v with
  | .str s =>
    let stringName := "str_" ++ toString st.blockCounter
    let escapedValue := escapeLLVMstringOfString s
    let llvmStrLen := utf8ByteLen s + 1
    let globalStrDef :=
      "@" ++ stringName ++ " = private unnamed_addr constant [" ++ toString llvmStrLen
        ++ " x i8] c\"" ++ escapedValue ++ "\\00\", align 1"
    let st1 := { st with blockCounter := st.blockCounter + 1,
                         globalDefinitions := st.globalDefinitions ++ [globalStrDef] }
    (st1, "i8* getelementptr inbounds ([" ++ toString llvmStrLen ++ " x i8], ["
          ++ toString llvmStrLen ++ " x i8]* @" ++ stringName ++ ", i32 0, i32 0)")
  | .int n => (st, toString n)
  | .bool b => (st, if b then "True" else "False")
  | .float txt => (st, "double " ++ txt)
  | .none => (st, "null ; Representing Python None as null pointer or in void context")
  | .other _ reprTxt => (st, "; Unhandled Constant: " ++ reprTxt)

/-- A character the Python str.strip method removes: space, tab, newline,
carriage return, vertical tab, form feed. -/
def isPyStripChar (c : Char) : Bool :=
  c.toNat = 32 || c.toNat = 9 || c.toNat = 10 || c.toNat = 13 || c.toNat = 11 || c.toNat = 12

/-- Python str.strip: remove leading and trailing whitespace. -/
def pyStrip (s : String) : String :=
  String.mk (((s.data.dropWhile isPyStripChar).reverse.dropWhile isPyStripChar).reverse)

/-- Python str.startswith on the modelled strings. -/
def pyStarts (s pre : String) : Bool :=
  pre.data.isPrefixOf s.data

/-- A control terminator test on one instruction line
(visit_FunctionDef lines 127-131): after stripping, the line starts with
ret-space, br-space, or unreachable. -/
def isTerminatorLine (l : String) : Bool :=
  pyStarts (pyStrip l) "ret " || pyStarts (pyStrip l) "br " || pyStarts (pyStrip l) "unreachable"

/-- The last-emitted-instruction terminator check of visit_FunctionDef
lines 125-131: only performed when the body buffer has more than the
seeded entry label. -/
def lastIsTerminator (lines : List String) : Bool :=
  if lines.length > 1 then
    match lines.getLast? with
    | Option.some l => isTerminatorLine l
    | Option.none => false
  else false

/-- The default terminator synthesized by visit_FunctionDef lines 133-142:
ret i32 0 for main, ret void for a void function, and a zeroinitializer
return of the declared type otherwise. -/
def defaultTerminator (name llvmReturnType : String) : String :=
  if name = "main" then "  ret i32 0"
  else if llvmReturnType = "void" then "  ret void"
  else "  ret " ++ llvmReturnType ++ " zeroinitializer"

/-- The docstring test used at both module level and function-body level:
an expression statement whose value is a string constant. -/
def isDocstringStmt : PyStmt → Bool
  | .exprStmt (.const (.str _)) => true
  | _ => false

/-- The is_defined scan of visit_Call lines 213-220: append the rendered
declaration to the global-definitions buffer unless a textually identical
line is already present. -/
def dedupAppendGlobal (st : EmitState) (line : String) : EmitState :=
  if st.globalDefinitions.contains line then st
  else { st with globalDefinitions := st.globalDefinitions ++ [line] }

/-- The is_defined scan of visit_Call lines 262-270: as dedupAppendGlobal,
but the block counter is incremented exactly when the line was newly
appended (the increment sits inside the not-is_defined branch). -/
def dedupAppendGlobalBump (st : EmitState) (line : String) : EmitState :=
  if st.globalDefinitions.contains line then st
  else { st with globalDefinitions := st.globalDefinitions ++ [line],
                 blockCounter := st.blockCounter + 1 }

/-- The newline declaration rendered by visit_Call lines 205-211 for the
zero-argument print: note the escaped quote after c and the raw-string
doubled backslash before 00, exactly as the Python f-string renders them. -/
def newlineGlobalRender : String :=
  "@global_newline_for_empty_print = private unnamed_addr constant ["
    ++ toString (utf8ByteLen "\n" + 1) ++ " x i8] c\\\"" ++ escapeLLVMstringOfString "\n"
    ++ "\\\\00" ++ "\\\", align 1"

/-- The state at the start of visit_FunctionDef (lines 99-100): the current
function name is recorded and the body buffer is reseeded with the entry
label. -/
def funcEntryState (st : EmitState) (name : String) : EmitState :=
  { st with currentFunctionName := Option.some name,
            currentFunctionBodyCode := ["entry:"] }

/-- The format-string declaration rendered by visit_Call lines 253-260 for
the print fallback, named fmt_<counter>; it has the same escaped-quote and
doubled-backslash rendering as the newline declaration. -/
def formatGlobalRender (counter : Nat) : String :=
  "@" ++ ("fmt_" ++ toString counter) ++ " = private unnamed_addr constant ["
    ++ toString (utf8ByteLen "%s\n" + 1) ++ " x i8] c\\\"" ++ escapeLLVMstringOfString "%s\n"
    ++ "\\\\00" ++ "\\\", align 1"

mutual
/-- Dispatch of LLVMIRGenerator.visit on an expression node, returning the
updated state and the value the visitor method returns.  A node kind
without a visitor method goes through generic_visit, which returns the
Python value None; where that value is interpolated into an instruction
(the format-string printf path) it renders as the text None, which is what
the second component models for otherExpr. -/
def emitExpr (st : EmitState) : PyExpr → EmitState × String
  | .name id ctx => (st, emitNameValue id ctx)
  | .const v => emitConstant st v
  | .call f args =>
    match f with
    | .name id _ =>
      if id = "print" then
        match args with
        | .nil =>
          -- visit_Call lines 201-226: print with no arguments.
          -- null_terminator_llvm is the PYTHON RAW STRING of backslash
          -- backslash 0 0, and the f-string writes an escaped quote after
          -- c, so the rendered declaration contains c backslash quote ...
          -- and a doubled backslash before 00.
          let newlineLlvmLen := utf8ByteLen "\n" + 1
          let st1 := dedupAppendGlobal st newlineGlobalRender
          let printfCall :=
            "  call i32 @printf(i8* getelementptr inbounds ([" ++ toString newlineLlvmLen
              ++ " x i8], [" ++ toString newlineLlvmLen
              ++ " x i8]* @global_newline_for_empty_print, i32 0, i32 0))"
          ({ st1 with currentFunctionBodyCode := st1.currentFunctionBodyCode ++ [printfCall] },
           printfCall)
        | .cons (.const (.str s)) .nil =>
          -- visit_Call lines 229-243: print of a single string literal.
          -- A synthetic Constant node with a trailing newline is visited,
          -- which dispatches to visit_Constant.
          let stringWithNewline := s ++ "\n"
          let (st1, ptr) := emitConstant st (PyVal.str stringWithNewline)
          let printfCall := "  call i32 @printf(" ++ ptr ++ ")"
          ({ st1 with currentFunctionBodyCode := st1.currentFunctionBodyCode ++ [printfCall] },
           printfCall)
        | .cons a _ =>
          -- visit_Call lines 245-284: the format-string fallback.  The
          -- format declaration suffers the same raw-string defect as the
          -- newline declaration; the counter is incremented only when the
          -- declaration line was newly appended; only the first argument
          -- is visited.
          let formatName := "fmt_" ++ toString st.blockCounter
          let formatStrLlvmLen := utf8ByteLen "%s\n" + 1
          let st1 := dedupAppendGlobalBump st (formatGlobalRender st.blockCounter)
          let (st2, argLlvmValue) := emitExpr st1 a
          let printfCall :=
            "  call i32 @printf(i8* getelementptr inbounds ([" ++ toString formatStrLlvmLen
              ++ " x i8], [" ++ toString formatStrLlvmLen ++ " x i8]* @" ++ formatName
              ++ ", i32 0, i32 0), " ++ argLlvmValue ++ ")"
          ({ st2 with currentFunctionBodyCode := st2.currentFunctionBodyCode ++ [printfCall] },
           printfCall)
      else
        -- visit_Call lines 288-293: call to a bare name other than print.
        let callPlaceholder := "  ; Placeholder for call to function @" ++ id
        ({ st with currentFunctionBodyCode := st.currentFunctionBodyCode ++ [callPlaceholder] },
         "%call_result_placeholder_for_" ++ id ++ " ; Placeholder return value for " ++ id)
    | _ =>
      -- visit_Call lines 295-297: non-Name callee.
      let unhandledCallMsg := "; Call to unhandled complex callable (e.g., attribute access, subscript)"
      ({ st with currentFunctionBodyCode := st.currentFunctionBodyCode ++ ["  " ++ unhandledCallMsg] },
       unhandledCallMsg)
  | .otherExpr => (st, "None")

/-- Dispatch of LLVMIRGenerator.visit on a statement node. -/
def emitStmt (st : EmitState) : PyStmt → EmitState
  | .funcDef name returns body =>
    -- visit_FunctionDef, lines 97-154.
    let st0 := funcEntryState st name
    let llvmReturnType := funcReturnType name returns
    let funcSignatureStr := "define " ++ llvmReturnType ++ " @" ++ name ++ "() \x7b"
    let st1 := emitWalkBody st0 body
    let finalBody :=
      if lastIsTerminator st1.currentFunctionBodyCode then st1.currentFunctionBodyCode
      else st1.currentFunctionBodyCode ++ [defaultTerminator name llvmReturnType]
    { st1 with
        allFunctionDefinitionsCode :=
          st1.allFunctionDefinitionsCode ++ ([funcSignatureStr] ++ finalBody ++ ["\x7d"]),
        currentFunctionName := Option.none,
        currentFunctionBodyCode := [] }
  | .ret v =>
    -- visit_Return, lines 299-336.
    match v with
    | .some e =>
      let (st1, llvmValue) := emitExpr st e
      let retInstr :=
        if st1.currentFunctionName = Option.some "main" then "  ret i32 " ++ llvmValue
        else "  ret void ; Placeholder for non-main return, value: " ++ llvmValue
      { st1 with currentFunctionBodyCode := st1.currentFunctionBodyCode ++ [retInstr] }
    | .none =>
      if st.currentFunctionName = Option.some "main" then
        { st with currentFunctionBodyCode := st.currentFunctionBodyCode ++ ["  ret i32 0"] }
      else
        { st with currentFunctionBodyCode := st.currentFunctionBodyCode ++ ["  ret void"] }
  | .exprStmt e => (emitExpr st e).1
  | .passStmt => st

/-- The function-body loop of visit_FunctionDef, lines 117-123: EVERY
bare-string-literal expression statement in the body is skipped (the
docstring test is applied to each statement in turn), every other
statement is visited in order. -/
def emitWalkBody (st : EmitState) : PyStmtList → EmitState
  | .nil => st
  | .cons s ss =>
    if isDocstringStmt s then emitWalkBody st ss
    else emitWalkBody (emitStmt st s) ss

/-- Sequential visiting of a statement list with no docstring logic (the
loop of visit_Module after the index-0 docstring decision). -/
def emitStmts (st : EmitState) : PyStmtList → EmitState
  | .nil => st
  | .cons s ss => emitStmts (emitStmt st s) ss
end

/-- LLVMIRGenerator.visit_Module, lines 79-95: the docstring test is applied
to the FIRST top-level statement only; when it matches, that statement is
skipped and the rest are visited in order. -/
def emitModule (st : EmitState) (m : PyStmtList) : EmitState :=
  match m with
  | .nil => st
  | .cons s ss =>
    if isDocstringStmt s then emitStmts st ss
    else emitStmts st m

/-- LLVMIRGenerator.get_llvm_ir, lines 338-353: module prefix, a blank line
only when global definitions exist, the globals, a blank line only when
function blocks exist, the function blocks, joined with newlines. -/
def getLlvmIr (st : EmitState) : String :=
  let fullCodeLines :=
    st.modulePrefixCode
      ++ (if st.globalDefinitions.isEmpty then [] else [""])
      ++ st.globalDefinitions
      ++ (if st.allFunctionDefinitionsCode.isEmpty then [] else [""])
      ++ st.allFunctionDefinitionsCode
  String.intercalate "\n" fullCodeLines

/-- SPEC-SIDE definition (claim C8): the declaration shape the specification
prescribes for every emitted global constant:
at-name = private unnamed_addr constant [N x i8] c-quote escaped-bytes
backslash-0-0 quote, align 1 — with a PLAIN double quote after c and a
SINGLE backslash in the null terminator. -/
def wellFormedGlobal (name : String) (n : Nat) (escapedBytes : String) : String :=
  "@" ++ name ++ " = private unnamed_addr constant [" ++ toString n
    ++ " x i8] c\"" ++ escapedBytes ++ "\\00\", align 1"

/-! ## The Compiler Facade (compiler.py, class MoreliaCompiler) -/

/-- The typed failures a compile operation can raise: the TypeError built
from the aggregated validation messages (compile_file line 43,
compile_to_llvm line 75), and the NameError Python raises when a function
body references a name that is bound nowhere. -/
inductive CompErr
  | typeError (msg : String)
  | nameError (missing : String)
deriving DecidableEq

/-- True iff the computation returned normally. -/
def exceptOk (r : Except CompErr String) : Bool :=
  match r with
  | .ok _ => true
  | .error _ => false

mutual
/-- The annotation pre-processing pass of the facade (compiler.py lines
35-38 and 67-70): ast.walk visits every FunctionDef at every depth and
rewrites a returns field that is a Constant None into a Name None node. -/
def preprocessStmt : PyStmt → PyStmt
  | .funcDef name returns body =>
    let returns1 :=
      match returns with
      | .some (.const .none) => OptPyExpr.some (.name "None" .load)
      | r => r
    .funcDef name returns1 (preprocessStmts body)
  | s => s

/-- Pre-processing over a statement list. -/
def preprocessStmts : PyStmtList → PyStmtList
  | .nil => .nil
  | .cons s ss => .cons (preprocessStmt s) (preprocessStmts ss)
end

/-- MoreliaCompiler.compile_file, lines 18-59, from the point where the
external parser has produced the program tree: pre-process annotations,
run a fresh TypeChecker, raise the aggregated TypeError when validation
fails, otherwise run a fresh LLVMIRGenerator and write the rendered IR
text (the ok result models the full content of the output file). -/
def compileFile (m : PyStmtList) : Except CompErr String :=
  let m1 := preprocessStmts m
  let tc := tcCheckState m1
  if tc.errors.isEmpty then
    Except.ok (getLlvmIr (emitModule freshEmit m1))
  else
    Except.error (CompErr.typeError
      ("Type checking failed:\n" ++ String.intercalate "\n" tc.errors))

/-- MoreliaCompiler.compile_to_llvm, lines 61-94: identical validation and
emission, but after computing llvm_ir_code the method executes
`with output_path.open(...)` (line 90) even though output_path is not a
parameter of compile_to_llvm and is bound nowhere in the module, so Python
raises NameError before the return statement is reached. -/
def compileToLlvm (m : PyStmtList) : Except CompErr String :=
  let m1 := preprocessStmts m
  let tc := tcCheckState m1
  if tc.errors.isEmpty then
    let _llvmIrCode := getLlvmIr (emitModule freshEmit m1)
    Except.error (CompErr.nameError "output_path")
  else
    Except.error (CompErr.typeError
      ("Type checking failed:\n" ++ String.intercalate "\n" tc.errors))

/-! ## Concrete program trees used by individual claims -/

/-- The parse tree of: def main() -> int: print(x)  — x undeclared (C1). -/
def c1Input : PyStmtList :=
  .cons (.funcDef "main" (.some (.name "int" .load))
    (.cons (.exprStmt (.call (.name "print" .load) (.cons (.name "x" .load) .nil))) .nil)) .nil

/-- The parse tree of: def main() -> int: return 0  — a valid program (C2). -/
def c2Input : PyStmtList :=
  .cons (.funcDef "main" (.some (.name "int" .load))
    (.cons (.ret (.some (.const (.int 0)))) .nil)) .nil

/-- The parse tree of a module whose body is the single expression
statement True (a boolean constant) (C5). -/
def c5Input : PyStmtList :=
  .cons (.exprStmt (.const (.bool true))) .nil

/-- The parse tree of: def f() -> str: return "a"  (C6). -/
def c6Input : PyStmtList :=
  .cons (.funcDef "f" (.some (.name "str" .load))
    (.cons (.ret (.some (.const (.str "a")))) .nil)) .nil

/-- The parse tree of: def main() -> int: print()  (C8). -/
def c8Input : PyStmtList :=
  .cons (.funcDef "main" (.some (.name "int" .load))
    (.cons (.exprStmt (.call (.name "print" .load) .nil)) .nil)) .nil

/-- The global declaration line the generator appends for the shared
zero-argument-print newline constant, exactly as rendered by visit_Call
lines 207-211: the c is followed by backslash quote, and the null
terminator renders as two backslashes then 00 (Python raw string r of
backslash backslash 0 0). -/
def actualNewlineGlobalLine : String :=
  "@global_newline_for_empty_print = private unnamed_addr constant [2 x i8] c\\\"\\0A\\\\00\\\", align 1"

/-- The parse tree of a module whose body is the single expression
statement int() (C10). -/
def c10Input : PyStmtList :=
  .cons (.exprStmt (.call (.name "int" .load) .nil)) .nil

/-! ## Helper lemmas -/

/-- Each loop iteration of the escaper appends exactly the per-byte image of
the current byte to the accumulator. -/
theorem escStep_eq_spec (acc : String) (b : Nat) : escStep acc b = acc ++ escapeByteSpec b := by
  unfold escStep escapeByteSpec
  split_ifs <;> first | rfl | simp [String.append_assoc]

/-- Folding the escaper loop from any accumulator appends the concatenated
per-byte images. -/
theorem escape_foldl_aux (bs : List Nat) :
    ∀ acc : String, bs.foldl escStep acc = acc ++ escapeBytesSpec bs := by
  induction bs with
  | nil => intro acc; simp [escapeBytesSpec]
  | cons b bs ih =>
    intro acc
    rw [List.foldl_cons, ih, escStep_eq_spec, escapeBytesSpec, String.append_assoc]

/-- The dedup-append of a global declaration only ever appends at the end of
the global buffer and touches no other emission buffer. -/
theorem dedupAppendGlobal_mono (st : EmitState) (line : String) :
    st.globalDefinitions <+: (dedupAppendGlobal st line).globalDefinitions
      ∧ (dedupAppendGlobal st line).allFunctionDefinitionsCode = st.allFunctionDefinitionsCode
      ∧ (dedupAppendGlobal st line).currentFunctionBodyCode = st.currentFunctionBodyCode
      ∧ (dedupAppendGlobal st line).currentFunctionName = st.currentFunctionName := by
  unfold dedupAppendGlobal
  split
  · simp
  · simp [List.prefix_append]

/-- As dedupAppendGlobal_mono, for the counter-bumping variant. -/
theorem dedupAppendGlobalBump_mono (st : EmitState) (line : String) :
    st.globalDefinitions <+: (dedupAppendGlobalBump st line).globalDefinitions
      ∧ (dedupAppendGlobalBump st line).allFunctionDefinitionsCode = st.allFunctionDefinitionsCode
      ∧ (dedupAppendGlobalBump st line).currentFunctionBodyCode = st.currentFunctionBodyCode
      ∧ (dedupAppendGlobalBump st line).currentFunctionName = st.currentFunctionName := by
  unfold dedupAppendGlobalBump
  split
  · simp
  · simp [List.prefix_append]

/-- visit_Constant only ever appends at the end of the global buffer and
leaves the function buffers untouched. -/
theorem emitConstant_mono (st : EmitState) (v : PyVal) :
    st.globalDefinitions <+: (emitConstant st v).1.globalDefinitions
      ∧ (emitConstant st v).1.allFunctionDefinitionsCode = st.allFunctionDefinitionsCode
      ∧ (emitConstant st v).1.currentFunctionBodyCode = st.currentFunctionBodyCode
      ∧ (emitConstant st v).1.currentFunctionName = st.currentFunctionName := by
  cases v <;> simp [emitConstant, List.prefix_append]

mutual
/-- Expression emission only grows the global buffer at its end and never
touches the accumulated function-definitions buffer. -/
theorem emitExpr_mono (e : PyExpr) : ∀ st : EmitState,
    st.globalDefinitions <+: (emitExpr st e).1.globalDefinitions
      ∧ (emitExpr st e).1.allFunctionDefinitionsCode = st.allFunctionDefinitionsCode := by
  match e with
  | .name id ctx => intro st; exact ⟨List.prefix_rfl, rfl⟩
  | .otherExpr => intro st; exact ⟨List.prefix_rfl, rfl⟩
  | .const v =>
    intro st
    obtain ⟨h1, h2, _, _⟩ := emitConstant_mono st v
    exact ⟨h1, h2⟩
  | .call f args =>
    intro st
    match f with
    | .const v => exact ⟨List.prefix_rfl, rfl⟩
    | .call f2 a2 => exact ⟨List.prefix_rfl, rfl⟩
    | .otherExpr => exact ⟨List.prefix_rfl, rfl⟩
    | .name id ctx =>
      by_cases hid : id = "print"
      · subst hid
        match args with
        | .nil =>
          obtain ⟨h1, h2, _, _⟩ := dedupAppendGlobal_mono st newlineGlobalRender
          rw [emitExpr.eq_def]
          exact ⟨h1, h2⟩
        | .cons (.const (.str s)) .nil =>
          obtain ⟨h1, h2, _, _⟩ := emitConstant_mono st (PyVal.str (s ++ "\n"))
          rw [emitExpr.eq_def]
          rcases hp : emitConstant st (PyVal.str (s ++ "\n")) with ⟨st1, ptr⟩
          rw [hp] at h1 h2
          simp only [hp]
          exact ⟨h1, h2⟩
        | .cons (.const (.str s)) (.cons e2 r2) =>
          have := emitExpr_print_format_mono (.const (.str s)) (.cons e2 r2)
          exact this st
        | .cons (.name i2 c2) rest => exact emitExpr_print_format_mono (.name i2 c2) rest st
        | .cons (.const (.int n)) rest => exact emitExpr_print_format_mono (.const (.int n)) rest st
        | .cons (.const (.bool b)) rest => exact emitExpr_print_format_mono (.const (.bool b)) rest st
        | .cons (.const (.float t)) rest => exact emitExpr_print_format_mono (.const (.float t)) rest st
        | .cons (.const .none) rest => exact emitExpr_print_format_mono (.const .none) rest st
        | .cons (.const (.other t r)) rest => exact emitExpr_print_format_mono (.const (.other t r)) rest st
        | .cons (.call f3 a3) rest => exact emitExpr_print_format_mono (.call f3 a3) rest st
        | .cons .otherExpr rest => exact emitExpr_print_format_mono .otherExpr rest st
      · rw [emitExpr.eq_def]
        simp only []
        rw [if_neg hid]
        exact ⟨List.prefix_rfl, rfl⟩

/-- The format-string fallback path of a print call preserves the buffers
as emitExpr_mono states, for every shape of the argument list. -/
theorem emitExpr_print_format_mono (a : PyExpr) (rest : PyExprList) : ∀ st : EmitState,
    st.globalDefinitions
        <+: (emitExpr st (.call (.name "print" .load) (.cons a rest))).1.globalDefinitions
      ∧ (emitExpr st (.call (.name "print" .load) (.cons a rest))).1.allFunctionDefinitionsCode
        = st.allFunctionDefinitionsCode := by
  match a, rest with
  | .const (.str s), .nil =>
    intro st
    obtain ⟨h1, h2, _, _⟩ := emitConstant_mono st (PyVal.str (s ++ "\n"))
    rw [emitExpr.eq_def]
    simp only []
    rcases hp : emitConstant st (PyVal.str (s ++ "\n")) with ⟨st1, ptr⟩
    rw [hp] at h1 h2
    simp only [hp]
    exact ⟨h1, h2⟩
  | .const (.str s), .cons e2 r2 =>
    intro st
    obtain ⟨hd1, hd2, hd3, hd4⟩ := dedupAppendGlobalBump_mono st (formatGlobalRender st.blockCounter)
    obtain ⟨h1, h2⟩ := emitExpr_mono (.const (.str s)) (dedupAppendGlobalBump st (formatGlobalRender st.blockCounter))
    rw [emitExpr.eq_def]
    simp only []
    rcases hp : emitExpr (dedupAppendGlobalBump st (formatGlobalRender st.blockCounter)) (.const (.str s)) with ⟨st2, v⟩
    rw [hp] at h1 h2
    simp only [hp]
    constructor
    · simpa using hd1.trans h1
    · simpa using h2.trans hd2
  | .name i2 c2, rest =>
    intro st
    obtain ⟨hd1, hd2, hd3, hd4⟩ := dedupAppendGlobalBump_mono st (formatGlobalRender st.blockCounter)
    obtain ⟨h1, h2⟩ := emitExpr_mono (.name i2 c2) (dedupAppendGlobalBump st (formatGlobalRender st.blockCounter))
    rw [emitExpr.eq_def]
    simp only []
    rcases hp : emitExpr (dedupAppendGlobalBump st (formatGlobalRender st.blockCounter)) (.name i2 c2) with ⟨st2, v⟩
    rw [hp] at h1 h2
    simp only [hp]
    constructor
    · simpa using hd1.trans h1
    · simpa using h2.trans hd2
  | .const (.int n), rest =>
    intro st
    obtain ⟨hd1, hd2, hd3, hd4⟩ := dedupAppendGlobalBump_mono st (formatGlobalRender st.blockCounter)
    obtain ⟨h1, h2⟩ := emitExpr_mono (.const (.int n)) (dedupAppendGlobalBump st (formatGlobalRender st.blockCounter))
    rw [emitExpr.eq_def]
    simp only []
    rcases hp : emitExpr (dedupAppendGlobalBump st (formatGlobalRender st.blockCounter)) (.const (.int n)) with ⟨st2, v⟩
    rw [hp] at h1 h2
    simp only [hp]
    constructor
    · simpa using hd1.trans h1
    · simpa using h2.trans hd2
  | .const (.bool b), rest =>
    intro st
    obtain ⟨hd1, hd2, hd3, hd4⟩ := dedupAppendGlobalBump_mono st (formatGlobalRender st.blockCounter)
    obtain ⟨h1, h2⟩ := emitExpr_mono (.const (.bool b)) (dedupAppendGlobalBump st (formatGlobalRender st.blockCounter))
    rw [emitExpr.eq_def]
    simp only []
    rcases hp : emitExpr (dedupAppendGlobalBump st (formatGlobalRender st.blockCounter)) (.const (.bool b)) with ⟨st2, v⟩
    rw [hp] at h1 h2
    simp only [hp]
    constructor
    · simpa using hd1.trans h1
    · simpa using h2.trans hd2
  | .const (.float t), rest =>
    intro st
    obtain ⟨hd1, hd2, hd3, hd4⟩ := dedupAppendGlobalBump_mono st (formatGlobalRender st.blockCounter)
    obtain ⟨h1, h2⟩ := emitExpr_mono (.const (.float t)) (dedupAppendGlobalBump st (formatGlobalRender st.blockCounter))
    rw [emitExpr.eq_def]
    simp only []
    rcases hp : emitExpr (dedupAppendGlobalBump st (formatGlobalRender st.blockCounter)) (.const (.float t)) with ⟨st2, v⟩
    rw [hp] at h1 h2
    simp only [hp]
    constructor
    · simpa using hd1.trans h1
    · simpa using h2.trans hd2
  | .const .none, rest =>
    intro st
    obtain ⟨hd1, hd2, hd3, hd4⟩ := dedupAppendGlobalBump_mono st (formatGlobalRender st.blockCounter)
    obtain ⟨h1, h2⟩ := emitExpr_mono (.const .none) (dedupAppendGlobalBump st (formatGlobalRender st.blockCounter))
    rw [emitExpr.eq_def]
    simp only []
    rcases hp : emitExpr (dedupAppendGlobalBump st (formatGlobalRender st.blockCounter)) (.const .none) with ⟨st2, v⟩
    rw [hp] at h1 h2
    simp only [hp]
    constructor
    · simpa using hd1.trans h1
    · simpa using h2.trans hd2
  | .const (.other t r), rest =>
    intro st
    obtain ⟨hd1, hd2, hd3, hd4⟩ := dedupAppendGlobalBump_mono st (formatGlobalRender st.blockCounter)
    obtain ⟨h1, h2⟩ := emitExpr_mono (.const (.other t r)) (dedupAppendGlobalBump st (formatGlobalRender st.blockCounter))
    rw [emitExpr.eq_def]
    simp only []
    rcases hp : emitExpr (dedupAppendGlobalBump st (formatGlobalRender st.blockCounter)) (.const (.other t r)) with ⟨st2, v⟩
    rw [hp] at h1 h2
    simp only [hp]
    constructor
    · simpa using hd1.trans h1
    · simpa using h2.trans hd2
  | .call f3 a3, rest =>
    intro st
    obtain ⟨hd1, hd2, hd3, hd4⟩ := dedupAppendGlobalBump_mono st (formatGlobalRender st.blockCounter)
    obtain ⟨h1, h2⟩ := emitExpr_mono (.call f3 a3) (dedupAppendGlobalBump st (formatGlobalRender st.blockCounter))
    rw [emitExpr.eq_def]
    simp only []
    rcases hp : emitExpr (dedupAppendGlobalBump st (formatGlobalRender st.blockCounter)) (.call f3 a3) with ⟨st2, v⟩
    rw [hp] at h1 h2
    simp only [hp]
    constructor
    · simpa using hd1.trans h1
    · simpa using h2.trans hd2
  | .otherExpr, rest =>
    intro st
    obtain ⟨hd1, hd2, hd3, hd4⟩ := dedupAppendGlobalBump_mono st (formatGlobalRender st.blockCounter)
    obtain ⟨h1, h2⟩ := emitExpr_mono .otherExpr (dedupAppendGlobalBump st (formatGlobalRender st.blockCounter))
    rw [emitExpr.eq_def]
    simp only []
    rcases hp : emitExpr (dedupAppendGlobalBump st (formatGlobalRender st.blockCounter)) .otherExpr with ⟨st2, v⟩
    rw [hp] at h1 h2
    simp only [hp]
    constructor
    · simpa using hd1.trans h1
    · simpa using h2.trans hd2
end

mutual
/-- Statement emission only grows the global buffer and the accumulated
function-definitions buffer at their ends. -/
theorem emitStmt_mono (s : PyStmt) : ∀ st : EmitState,
    st.globalDefinitions <+: (emitStmt st s).globalDefinitions
      ∧ st.allFunctionDefinitionsCode <+: (emitStmt st s).allFunctionDefinitionsCode := by
  match s with
  | .passStmt => intro st; exact ⟨List.prefix_rfl, List.prefix_rfl⟩
  | .exprStmt e =>
    intro st
    obtain ⟨h1, h2⟩ := emitExpr_mono e st
    rw [emitStmt.eq_def]
    exact ⟨h1, by rw [h2]⟩
  | .ret .none =>
    intro st
    rw [emitStmt.eq_def]
    simp only []
    split <;> exact ⟨by simp, by simp⟩
  | .ret (.some e) =>
    intro st
    obtain ⟨h1, h2⟩ := emitExpr_mono e st
    rw [emitStmt.eq_def]
    simp only []
    rcases hp : emitExpr st e with ⟨st1, v⟩
    rw [hp] at h1 h2
    simp only [hp]
    exact ⟨by simpa using h1, by rw [h2]⟩
  | .funcDef name returns body =>
    intro st
    obtain ⟨h1, h2⟩ := emitWalkBody_mono body (funcEntryState st name)
    rw [emitStmt.eq_def]
    simp only []
    constructor
    · simpa [funcEntryState] using h1
    · refine List.IsPrefix.trans ?_ (List.prefix_append _ _)
      simpa [funcEntryState] using h2

/-- Walking a function body only grows the global and function buffers at
their ends. -/
theorem emitWalkBody_mono (ss : PyStmtList) : ∀ st : EmitState,
    st.globalDefinitions <+: (emitWalkBody st ss).globalDefinitions
      ∧ st.allFunctionDefinitionsCode <+: (emitWalkBody st ss).allFunctionDefinitionsCode := by
  match ss with
  | .nil => intro st; exact ⟨List.prefix_rfl, List.prefix_rfl⟩
  | .cons s ss =>
    intro st
    rw [emitWalkBody.eq_def]
    simp only []
    split
    · exact emitWalkBody_mono ss st
    · obtain ⟨h1, h2⟩ := emitStmt_mono s st
      obtain ⟨h3, h4⟩ := emitWalkBody_mono ss (emitStmt st s)
      exact ⟨h1.trans h3, h2.trans h4⟩

/-- Visiting a statement list only grows the global and function buffers at
their ends. -/
theorem emitStmts_mono (ss : PyStmtList) : ∀ st : EmitState,
    st.globalDefinitions <+: (emitStmts st ss).globalDefinitions
      ∧ st.allFunctionDefinitionsCode <+: (emitStmts st ss).allFunctionDefinitionsCode := by
  match ss with
  | .nil => intro st; exact ⟨List.prefix_rfl, List.prefix_rfl⟩
  | .cons s ss =>
    intro st
    obtain ⟨h1, h2⟩ := emitStmt_mono s st
    obtain ⟨h3, h4⟩ := emitStmts_mono ss (emitStmt st s)
    rw [emitStmts.eq_def]
    exact ⟨h1.trans h3, h2.trans h4⟩
end

/-- A positive last-emitted-instruction terminator check yields a last line
that is a terminator. -/
theorem lastIsTerminator_spec {lines : List String} (h : lastIsTerminator lines = true) :
    ∃ l, lines.getLast? = Option.some l ∧ isTerminatorLine l = true := by
  unfold lastIsTerminator at h
  split at h
  · split at h
    · next heq => exact ⟨_, heq, h⟩
    · exact absurd h (by simp)
  · exact absurd h (by simp)

/-- The annotation mapper is total into the three scalar IR type tags. -/
theorem mapAnnToLLVM_range (r : OptPyExpr) :
    mapAnnToLLVM r = "void" ∨ mapAnnToLLVM r = "i32" ∨ mapAnnToLLVM r = "i8*" := by
  unfold mapAnnToLLVM
  split <;> simp

/-- The resolved IR return type of every function definition is one of the
three scalar IR type tags. -/
theorem funcReturnType_range (name : String) (r : OptPyExpr) :
    funcReturnType name r = "void" ∨ funcReturnType name r = "i32"
      ∨ funcReturnType name r = "i8*" := by
  unfold funcReturnType
  split
  · simp
  · split
    · exact mapAnnToLLVM_range _
    · simp

/-- Every default terminator the emitter can synthesize passes the
terminator-line test. -/
theorem isTerminatorLine_default (name rt : String)
    (hrt : rt = "void" ∨ rt = "i32" ∨ rt = "i8*") :
    isTerminatorLine (defaultTerminator name rt) = true := by
  unfold defaultTerminator
  split
  · decide
  · split
    · decide
    · next hnv =>
      rcases hrt with h | h | h
      · exact absurd h hnv
      · rw [h]; decide
      · rw [h]; decide

/-! ## Claim theorems -/

/-- Claim C1, counterexample.  The claim states that for print(x) with x an
undeclared name the Checker appends an Undefined-variable error and check
returns false, so the Emitter is never invoked.  On the code the opposite
happens: visit_Call returns for a print callee before generic_visit runs,
so the argument x is never visited, the error list stays empty, check
returns true, and the facade proceeds to the Emitter. -/
theorem c1_print_undefined_arg_counterexample :
    (tcCheckState c1Input).errors = [] ∧ tcCheck c1Input = true
      ∧ exceptOk (compileFile c1Input) = true := by
  refine ⟨by decide, by decide, by decide⟩

/-- Claim C1, amended: a call whose callee is the bare name print is
accepted unconditionally WITHOUT descending into the call's sub-nodes (the
visit_Call method returns before generic_visit); consequently a program
containing print(x) with x undeclared passes the check with no error and
reaches the Emitter.  Generic descent into the call's sub-nodes happens
only on the undefined-callee path (after the Undefined-function error) and
the non-name-callee path. -/
theorem c1_print_call_skips_arguments :
    (∀ (st : TCState) (ctx : NameCtx) (args : PyExprList),
        tcVisitExpr st (.call (.name "print" ctx) args) = st)
    ∧ (tcCheckState c1Input).errors = []
    ∧ tcCheck c1Input = true
    ∧ exceptOk (compileFile c1Input) = true := by
  refine ⟨fun st ctx args => rfl, by decide, by decide, by decide⟩

/-- Claim C2, code bug.  For every program tree that passes validation the
string-to-string compile operation does NOT return the rendered IR text:
after computing the IR, line 90 of compiler.py executes
`with output_path.open(...)` although output_path is not bound anywhere in
compile_to_llvm, so Python raises NameError instead of returning. -/
theorem c2_compile_to_llvm_raises_name_error :
    ∀ m : PyStmtList, (tcCheckState (preprocessStmts m)).errors.isEmpty = true →
      compileToLlvm m = Except.error (CompErr.nameError "output_path") := by
  intro m h
  unfold compileToLlvm
  simp [h]

/-- Witness for claim C2 at the concrete valid program
def main() -> int: return 0. -/
theorem c2_compile_to_llvm_raises_name_error_witness :
    (tcCheckState (preprocessStmts c2Input)).errors.isEmpty = true
      ∧ compileToLlvm c2Input = Except.error (CompErr.nameError "output_path") :=
  ⟨by decide, c2_compile_to_llvm_raises_name_error c2Input (by decide)⟩

/-- Claim C3, confirmed.  A function definition with no return-type
annotation makes the Checker append exactly one error for that function
(whatever the incoming checker state and whatever the function body, which
is not visited), the message contains the function name; for the
single-function module the whole error list is exactly that message, check
returns false, and the facade raises the typed failure carrying the
aggregated newline-joined message instead of emitting. -/
theorem c3_missing_return_annotation_rejected :
    (∀ (st : TCState) (name : String) (body : PyStmtList),
        tcVisitStmt st (.funcDef name .none body)
          = { st with errors := st.errors
              ++ ["Function " ++ name ++ " lacks return type annotation"] })
    ∧ (∀ (name : String) (body : PyStmtList),
        (tcCheckState (.cons (.funcDef name .none body) .nil)).errors
          = ["Function " ++ name ++ " lacks return type annotation"])
    ∧ (∀ (name : String) (body : PyStmtList),
        tcCheck (.cons (.funcDef name .none body) .nil) = false)
    ∧ (∀ (name : String) (body : PyStmtList),
        compileFile (.cons (.funcDef name .none body) .nil)
          = Except.error (CompErr.typeError
              ("Type checking failed:\n"
                ++ ("Function " ++ name ++ " lacks return type annotation")))) := by
  refine ⟨fun st name body => rfl, fun name body => rfl,
          fun name body => rfl, fun name body => rfl⟩

/-- Claim C4, confirmed.  The String Escaper is total (it is a Lean
function on all byte lists) and maps each byte independently: the fold of
the loop body equals the concatenation of the per-byte images given by the
specification table (escapeByteSpec: the five named escapes, printable
ASCII unchanged, two-digit uppercase zero-padded hex otherwise); the
string-level escaper is that map applied to the UTF-8 encoding. -/
theorem c4_escaper_byte_independent :
    (∀ bs : List Nat, escapeLLVMstring bs = escapeBytesSpec bs)
    ∧ (∀ s : String, escapeLLVMstringOfString s = escapeBytesSpec (utf8Bytes s)) := by
  constructor
  · intro bs
    rw [escapeLLVMstring, escape_foldl_aux]
    simp
  · intro s
    rw [escapeLLVMstringOfString, escapeLLVMstring, escape_foldl_aux]
    simp

/-- Claim C5, counterexample.  The claim states a boolean constant causes
the error Unsupported constant type: bool.  On the code a module whose
body is the constant True passes the check with an empty error list,
because Python bool is a subclass of int and the accepting test is an
isinstance against (str, int). -/
theorem c5_bool_constant_counterexample :
    (tcCheckState c5Input).errors = [] ∧ tcCheck c5Input = true := by
  refine ⟨by decide, by decide⟩

/-- Claim C5, amended: string, integer, BOOLEAN and none constants are
accepted silently (bool passes the isinstance test against int); float and
every other literal value type append exactly the error
Unsupported constant type: with the Python type name. -/
theorem c5_constant_rule_with_bool_accepted :
    (∀ (st : TCState) (s : String), tcVisitConstant st (.str s) = st)
    ∧ (∀ (st : TCState) (n : Int), tcVisitConstant st (.int n) = st)
    ∧ (∀ (st : TCState) (b : Bool), tcVisitConstant st (.bool b) = st)
    ∧ (∀ st : TCState, tcVisitConstant st .none = st)
    ∧ (∀ (st : TCState) (txt : String), tcVisitConstant st (.float txt)
        = { st with errors := st.errors ++ ["Unsupported constant type: float"] })
    ∧ (∀ (st : TCState) (t r : String), tcVisitConstant st (.other t r)
        = { st with errors := st.errors ++ ["Unsupported constant type: " ++ t] }) := by
  refine ⟨fun st s => rfl, fun st n => rfl, fun st b => rfl, fun st => rfl,
          fun st txt => rfl, fun st t r => rfl⟩

/-- Claim C6, counterexample.  The claim states that a function whose
return annotation is the built-in string type passes the Definition
Checker with no error.  On the code def f() -> str: return "a" FAILS the
check: the checker's own annotation lookup knows only print, None,
NoneType and int, so it appends Unsupported type annotation: str and then
Invalid return type annotation for function f. -/
theorem c6_str_annotation_counterexample :
    tcCheck c6Input = false
      ∧ (tcCheckState c6Input).errors
          = ["Unsupported type annotation: str",
             "Invalid return type annotation for function f"] := by
  refine ⟨by decide, by decide⟩

/-- Claim C6, amended: the EMITTER's annotation mapper does map a str
annotation to i8*, but the Definition Checker uses its own annotation
lookup over the builtins keys (print, None, NoneType, int), which lacks
str, so every function carrying a str return annotation is rejected with
the two errors Unsupported type annotation: str and Invalid return type
annotation for function followed by the function name, whatever the
incoming state and function body. -/
theorem c6_str_maps_i8ptr_but_checker_rejects :
    (∀ ctx : NameCtx, mapAnnToLLVM (OptPyExpr.some (.name "str" ctx)) = "i8*")
    ∧ (∀ (st : TCState) (name : String) (body : PyStmtList) (ctx : NameCtx),
        tcVisitStmt st (.funcDef name (.some (.name "str" ctx)) body)
          = { st with errors := st.errors
              ++ ["Unsupported type annotation: str",
                  "Invalid return type annotation for function " ++ name] }) := by
  constructor
  · intro ctx; rfl
  · intro st name body ctx
    simp [tcVisitStmt, tcGetTypeAnn, builtinNames]

/-- Claim C7, confirmed.  For every function definition the Emitter
processes, the appended function block consists of the signature line, a
nonempty body whose LAST line is a control terminator, and the closing
brace; the body is the walked body unchanged when its last emitted line
already passes the terminator test, and otherwise the walked body followed
by exactly the synthesized default: ret i32 0 for main, ret void for a
void-typed function, and a zeroinitializer return of the declared type
otherwise.  (The leading pre accounts for blocks appended by function
definitions nested inside the body, which visit_FunctionDef flushes
first.) -/
theorem c7_function_body_always_terminated :
    ∀ (st : EmitState) (name : String) (returns : OptPyExpr) (body : PyStmtList),
    ∃ pre bodyLines lastL,
      (emitStmt st (.funcDef name returns body)).allFunctionDefinitionsCode
        = st.allFunctionDefinitionsCode ++ pre
          ++ (["define " ++ funcReturnType name returns ++ " @" ++ name ++ "() \x7b"]
              ++ bodyLines ++ ["\x7d"])
      ∧ bodyLines.getLast? = Option.some lastL
      ∧ isTerminatorLine lastL = true
      ∧ (bodyLines = (emitWalkBody (funcEntryState st name) body).currentFunctionBodyCode
         ∨ bodyLines = (emitWalkBody (funcEntryState st name) body).currentFunctionBodyCode
              ++ [defaultTerminator name (funcReturnType name returns)])
      ∧ defaultTerminator name (funcReturnType name returns)
          = (if name = "main" then "  ret i32 0"
             else if funcReturnType name returns = "void" then "  ret void"
             else "  ret " ++ funcReturnType name returns ++ " zeroinitializer") := by
  intro st name returns body
  obtain ⟨pre, hpre⟩ := (emitWalkBody_mono body (funcEntryState st name)).2
  by_cases hterm : lastIsTerminator (emitWalkBody (funcEntryState st name) body).currentFunctionBodyCode
  · obtain ⟨lastL, hlast, htermL⟩ := lastIsTerminator_spec hterm
    refine ⟨pre, _, lastL, ?_, hlast, htermL, Or.inl rfl, rfl⟩
    rw [emitStmt.eq_def]
    simp only [hterm, if_true]
    rw [← hpre]
    simp [List.append_assoc, funcEntryState]
  · refine ⟨pre, _, defaultTerminator name (funcReturnType name returns),
      ?_, List.getLast?_concat _, isTerminatorLine_default _ _ (funcReturnType_range name returns),
      Or.inr rfl, rfl⟩
    rw [emitStmt.eq_def]
    simp only [hterm, if_false, Bool.false_eq_true]
    rw [← hpre]
    simp [List.append_assoc, funcEntryState]

/-- Claim C8, code bug.  The claim states every global declaration line has
the form at-name = private unnamed_addr constant [N x i8] c-quote bytes
backslash-0-0 quote, align 1.  The interned-string path of visit_Constant
does render that form, but the shared newline global of the zero-argument
print (and likewise the format global) renders c backslash quote and a
DOUBLED backslash before 00 — the Python source uses the raw string of two
backslashes and escapes the quotes inside the f-string — so the line
emitted for def main() -> int: print() is not of the prescribed form. -/
theorem c8_newline_global_malformed :
    (emitModule freshEmit c8Input).globalDefinitions = [actualNewlineGlobalLine]
    ∧ actualNewlineGlobalLine ≠ wellFormedGlobal "global_newline_for_empty_print" 2 "\\0A"
    ∧ (∀ (st : EmitState) (s : String), (emitConstant st (PyVal.str s)).1.globalDefinitions
        = st.globalDefinitions
          ++ [wellFormedGlobal ("str_" ++ toString st.blockCounter) (utf8ByteLen s + 1)
              (escapeLLVMstringOfString s)]) := by
  refine ⟨by decide, by decide, fun st s => ?_⟩
  simp [emitConstant, wellFormedGlobal]

/-- Claim C9, confirmed.  A fresh Emitter starts with block counter 0, two
runs of the (purely functional, hence deterministic) core on the same tree
from fresh Emitter states render byte-identical IR text, and emission is
append-only on the global and function buffers — every statement leaves
the existing globals and function blocks as a prefix, in source
declaration order. -/
theorem c9_deterministic_ordered_emission :
    freshEmit.blockCounter = 0
    ∧ (∀ m : PyStmtList, getLlvmIr (emitModule freshEmit m) = getLlvmIr (emitModule freshEmit m))
    ∧ (∀ (st : EmitState) (s : PyStmt),
        st.globalDefinitions <+: (emitStmt st s).globalDefinitions
          ∧ st.allFunctionDefinitionsCode <+: (emitStmt st s).allFunctionDefinitionsCode)
    ∧ (∀ (st : EmitState) (ss : PyStmtList),
        st.globalDefinitions <+: (emitStmts st ss).globalDefinitions
          ∧ st.allFunctionDefinitionsCode <+: (emitStmts st ss).allFunctionDefinitionsCode) :=
  ⟨rfl, fun _ => rfl, fun st s => emitStmt_mono s st, fun st ss => emitStmts_mono ss st⟩

/-- Claim C10, counterexample.  The claim states that EVERY call whose
bare-name callee is neither print nor a bound variable yields two errors.
On the code the call int() yields exactly ONE error: Undefined function:
int is appended, but the subsequent generic descent re-visits the callee
name int, which IS in the builtin set, so no Undefined-variable error
follows. -/
theorem c10_builtin_callee_counterexample :
    (tcCheckState c10Input).errors = ["Undefined function: int"] := by
  decide

/-- Claim C10, amended: a call whose bare-name callee is neither print, nor
a bound variable, nor one of the other builtin names (None, NoneType,
int) appends exactly the two errors Undefined function and Undefined
variable for the callee before descending into the arguments; when the
callee is a non-print builtin such as int, only the Undefined-function
error is appended. -/
theorem c10_undefined_callee_two_errors :
    (∀ (st : TCState) (id : String) (ctx : NameCtx) (args : PyExprList),
        id ≠ "print" → id ≠ "None" → id ≠ "NoneType" → id ≠ "int" →
        st.boundVars.contains id = false →
        tcVisitExpr st (.call (.name id ctx) args)
          = tcVisitArgs { st with errors :=
              st.errors ++ ["Undefined function: " ++ id, "Undefined variable: " ++ id] } args)
    ∧ (∀ (st : TCState) (ctx : NameCtx) (args : PyExprList),
        st.boundVars.contains "int" = false →
        tcVisitExpr st (.call (.name "int" ctx) args)
          = tcVisitArgs { st with errors := st.errors ++ ["Undefined function: int"] } args) := by
  constructor
  · intro st id ctx args h1 h2 h3 h4 h5
    have h5m : id ∉ st.boundVars := by simpa using h5
    simp [tcVisitExpr, tcVisitName, builtinNames, h1, h2, h3, h4, h5m]
  · intro st ctx args h
    have hm : "int" ∉ st.boundVars := by simpa using h
    simp [tcVisitExpr, tcVisitName, builtinNames, hm]

/-- Witness for claim C10 at the concrete call flob() from a fresh checker
state. -/
theorem c10_undefined_callee_two_errors_witness :
    tcVisitExpr initialTC (.call (.name "flob" .load) .nil)
      = tcVisitArgs { initialTC with errors :=
          initialTC.errors ++ ["Undefined function: flob", "Undefined variable: flob"] } .nil :=
  c10_undefined_callee_two_errors.1 initialTC "flob" .load .nil
    (by decide) (by decide) (by decide) (by decide) (by decide)

end Morelia
